import Mathlib

/-!
Shallow embedding of the product-spotlight block
(src/blocks/product-spotlight/product-spotlight.js) of the
accs-storefront repository.

Modelling conventions:
- JavaScript values that may be `undefined` are modelled as `Option`.
- Monetary values are modelled in hundredths of a currency unit
  (integer cents): a JS number like `15` is the cent count `1500`, and
  `Number.prototype.toFixed(2)` corresponds to `toFixed2` on that count.
- JS code that can throw a `TypeError` is modelled in `Except JsError`.
- The DOM is modelled by the inductive `Node` tree; externally mounted
  drop-in components (Button, WishlistToggle) are opaque `Node.mount`
  leaves carrying their props as strings.
- External collaborators that are not part of this repository slice
  (placeholder labels, the network transport, `rootLink`, the block
  configuration already parsed by `readBlockConfig`) enter as inputs.
-/

set_option autoImplicit false

namespace ProductSpotlight

/-- A JavaScript runtime exception (the only kind this code can raise). -/
inductive JsError where
  | typeError (msg : String)
deriving Repr, DecidableEq

/-- One entry of a product image list: `{url, label?}`. -/
structure ProdImage where
  url : Option String
  label : Option String
deriving Repr, DecidableEq

/-- The `final_price` object: `{currency, value}`, each possibly absent. -/
structure FinalPrice where
  currency : Option String
  value : Option Int
deriving Repr, DecidableEq

/-- The `regular_price` object: `{value}`, possibly absent. -/
structure RegularPrice where
  value : Option Int
deriving Repr, DecidableEq

/-- The `minimum_price` object of a price range. -/
structure MinimumPrice where
  final_price : Option FinalPrice
  regular_price : Option RegularPrice
deriving Repr, DecidableEq

/-- The `price_range` object of a product payload. -/
structure PriceRange where
  minimum_price : Option MinimumPrice
deriving Repr, DecidableEq

/-- The `short_description` object: `{html}`. -/
structure ShortDescription where
  html : Option String
deriving Repr, DecidableEq

/-- The product payload as consumed by the block (fields read by the
renderer; `sku` and `name` are required strings of a non-null product). -/
structure Product where
  sku : String
  name : String
  url_key : Option String
  images : Option (List ProdImage)
  price_range : Option PriceRange
  short_description : Option ShortDescription
  media_gallery : Option (List ProdImage)
deriving Repr, DecidableEq

/-- The `data` member of a GraphQL response body: `{products?}`. -/
structure ProductsData where
  products : Option (List Product)
deriving Repr, DecidableEq

/-- A parsed GraphQL response body: `{data?}`. -/
structure GraphQLResponse where
  data : Option ProductsData
deriving Repr, DecidableEq

/-- Outcome of the single network exchange performed by
`fetchProductData`: the transport may reject (`networkError`), the body
may fail to parse as JSON (`jsonError`), or a parsed body is obtained. -/
inductive FetchOutcome where
  | networkError
  | jsonError
  | ok (resp : GraphQLResponse)
deriving Repr, DecidableEq

/-- The body of `fetchProductData` before its `catch` clause: a thrown
transport or parse exception surfaces as `Except.error`; otherwise the
result is `data.data?.products?.[0] || null` (object entries are truthy,
so the JS `|| null` coincides with the head-of-list option). -/
def fetchProductDataBody : FetchOutcome → Except JsError (Option Product)
  | .networkError => .error (.typeError "failed to fetch")
  | .jsonError => .error (.typeError "invalid json")
  | .ok resp => .ok ((resp.data.bind (·.products)).bind List.head?)

/-- `fetchProductData` (lines 34-86): the whole body sits in a
`try/catch`; any exception is logged to the console (a side channel
outside this model) and downgraded to a `null` return. -/
def fetchProductData (o : FetchOutcome) : Except JsError (Option Product) :=
  match fetchProductDataBody o with
  | .ok r => .ok r
  | .error _ => .ok none

/-- A DOM node: either a regular element (tag, className, textContent,
optional raw innerHTML, attributes, children) or an opaquely mounted
drop-in component with its props. -/
inductive Node where
  | elem (tag : String) (className : String) (text : String)
      (rawHtml : Option String) (attrs : List (String × String))
      (children : List Node)
  | mount (component : String) (props : List (String × String))

mutual

/-- Whether some element with the given tag occurs in the node tree. -/
def nodeHasTag (t : String) : Node → Bool
  | .elem tag _ _ _ _ children => tag = t || nodesHaveTag t children
  | .mount _ _ => false

/-- Whether some element with the given tag occurs in a list of node trees. -/
def nodesHaveTag (t : String) : List Node → Bool
  | [] => false
  | n :: ns => nodeHasTag t n || nodesHaveTag t ns

end

mutual

/-- Whether some element with the given className occurs in the node tree. -/
def nodeHasClass (c : String) : Node → Bool
  | .elem _ className _ _ _ children => className = c || nodesHaveClass c children
  | .mount _ _ => false

/-- Whether some element with the given className occurs in a list of node trees. -/
def nodesHaveClass (c : String) : List Node → Bool
  | [] => false
  | n :: ns => nodeHasClass c n || nodesHaveClass c ns

end

mutual

/-- Whether some element whose textContent equals the given string occurs
in the node tree. -/
def nodeHasText (s : String) : Node → Bool
  | .elem _ _ text _ _ children => text = s || nodesHaveText s children
  | .mount _ _ => false

/-- Whether some element whose textContent equals the given string occurs
in a list of node trees. -/
def nodesHaveText (s : String) : List Node → Bool
  | [] => false
  | n :: ns => nodeHasText s n || nodesHaveText s ns

end

/-- JS falsiness of a possibly-undefined string (`!s`): true exactly for
`undefined` and the empty string. -/
def jsFalsy : Option String → Bool
  | none => true
  | some s => s = ""

/-- JS `a || b` for a possibly-undefined string `a` and a string default. -/
def jsOr (a : Option String) (b : String) : String :=
  match a with
  | none => b
  | some s => if s = "" then b else s

/-- Rendering of `Number.prototype.toFixed(2)` on a monetary value given
as an integer count of hundredths of a unit. -/
def toFixed2 (cents : Int) : String :=
  let sign := if cents < 0 then "-" else ""
  let n := cents.natAbs
  let frac := n % 100
  let fracStr := if frac < 10 then "0" ++ toString frac else toString frac
  sign ++ toString (n / 100) ++ "." ++ fracStr

/-- The `Global` group of localized placeholder labels. -/
structure GlobalLabels where
  AddProductToCart : Option String
  ViewProduct : Option String
deriving Repr, DecidableEq

/-- Localized placeholder labels as returned by `fetchPlaceholders`
(an external collaborator; an input of the pipeline). -/
structure Labels where
  Global : Option GlobalLabels
deriving Repr, DecidableEq

/-- `createProductImage` (lines 93-112), returning the image container
that the source appends to its `container` argument: an `img` element
when `product.images?.[0]?.url` is truthy, else the fixed
"No Image Available" placeholder. -/
def createProductImage (product : Product) : Node :=
  let first := (product.images.getD []).head?
  let url := (first.bind (·.url)).getD ""
  if url ≠ "" then
    Node.elem "div" "spotlight__image-container" "" none []
      [Node.elem "img" "spotlight__image" "" none
        [("src", url), ("alt", jsOr (first.bind (·.label)) product.name)] []]
  else
    Node.elem "div" "spotlight__image-container" "" none []
      [Node.elem "div" "spotlight__image-placeholder" "No Image Available" none [] []]

/-- The price container built by `createProductInfo` (lines 131-153).
When `price_range?.minimum_price` is absent the price span stays empty.
Otherwise the source, in order: destructures `currency` from
`priceData.final_price` (TypeError when `final_price` is undefined),
reads `priceData.regular_price.value` (TypeError when `regular_price` is
undefined), calls `finalPrice.toFixed(2)` (TypeError when the final
value is undefined), and appends the original-price span before the
final-price span only when `finalPrice < regularPrice` (false in JS when
the regular value is undefined). -/
def createPriceContainer (product : Product) : Except JsError Node := do
  let priceData := product.price_range.bind (·.minimum_price)
  match priceData with
  | none =>
      pure (Node.elem "div" "spotlight__price-container" "" none []
        [Node.elem "span" "spotlight__price" "" none [] []])
  | some pd => do
      let fp ← match pd.final_price with
        | none => Except.error (JsError.typeError "cannot destructure currency")
        | some fp => pure fp
      let rp ← match pd.regular_price with
        | none => Except.error (JsError.typeError "cannot read value of undefined")
        | some rp => pure rp
      let fv ← match fp.value with
        | none => Except.error (JsError.typeError "toFixed of undefined")
        | some v => pure v
      let curStr := match fp.currency with
        | none => "undefined"
        | some c => c
      let priceNode := Node.elem "span" "spotlight__price"
        (curStr ++ " " ++ toFixed2 fv) none [] []
      let children := match rp.value with
        | some rv =>
            if fv < rv then
              [Node.elem "span" "spotlight__price-original"
                (curStr ++ " " ++ toFixed2 rv) none [] [], priceNode]
            else [priceNode]
        | none => [priceNode]
      pure (Node.elem "div" "spotlight__price-container" "" none [] children)

/-- The optional description fragment of `createProductInfo`
(lines 156-161): a raw-HTML div only when
`product.short_description?.html` is truthy. -/
def createDescriptionNodes (product : Product) : List Node :=
  match product.short_description.bind (·.html) with
  | some h =>
      if h ≠ "" then [Node.elem "div" "spotlight__description" "" (some h) [] []]
      else []
  | none => []

/-- The add-to-cart sub-element of the actions region (lines 167-193):
an externally rendered Button drop-in inside its container div. -/
def createAddToCart (labels : Labels) : Node :=
  Node.elem "div" "spotlight__add-to-cart" "" none []
    [Node.mount "Button"
      [("children", jsOr (labels.Global.bind (·.AddProductToCart)) "Add to Cart"),
       ("icon", "Cart"), ("variant", "primary"), ("size", "large")]]

/-- The view-product sub-element of the actions region (lines 195-206):
an externally rendered Button drop-in whose href is the rootLink of
`/products/{url_key}/{sku}` (an undefined url_key interpolates as the
string "undefined"). -/
def createViewProduct (product : Product) (labels : Labels)
    (rootLink : String → String) : Node :=
  Node.elem "div" "spotlight__view-product" "" none []
    [Node.mount "Button"
      [("children", jsOr (labels.Global.bind (·.ViewProduct)) "View Details"),
       ("href", rootLink ("/products/" ++ (product.url_key.getD "undefined")
          ++ "/" ++ product.sku)),
       ("variant", "secondary"), ("size", "large")]]

/-- The wishlist sub-element of the actions region (lines 208-219): an
externally rendered WishlistToggle with a minimal product descriptor
(its object-valued props captured as strings). -/
def createWishlist (product : Product) : Node :=
  Node.elem "div" "spotlight__wishlist" "" none []
    [Node.mount "WishlistToggle"
      [("sku", product.sku), ("name", product.name),
       ("price",
        ((((product.price_range.bind (·.minimum_price)).bind
            (·.final_price)).map (fun fp =>
          (fp.currency.getD "undefined") ++ ":" ++
            (match fp.value with
             | some v => toFixed2 v
             | none => "undefined"))).getD "undefined")),
       ("image",
        (((product.media_gallery.getD []).head?.bind (·.url)).getD "undefined"))]]

/-- The actions region (lines 163-222): add-to-cart, view-product and
wishlist sub-elements in fixed order. -/
def createActions (product : Product) (labels : Labels)
    (rootLink : String → String) : Node :=
  Node.elem "div" "spotlight__actions" "" none []
    [createAddToCart labels, createViewProduct product labels rootLink,
      createWishlist product]

/-- The tail of the info container's child list after the name heading
and the price container: optional description, then the actions region. -/
def infoTail (product : Product) (labels : Labels)
    (rootLink : String → String) : List Node :=
  createDescriptionNodes product ++ [createActions product labels rootLink]

/-- `createProductInfo` (lines 120-224), returning the info container
that the source appends to its `container` argument: name heading, price
container, optional raw-HTML description, and the actions region whose
three entries delegate to external drop-in renderers (opaque
`Node.mount` leaves carrying the supplied props). -/
def createProductInfo (product : Product) (labels : Labels)
    (rootLink : String → String) : Except JsError Node := do
  let nameNode := Node.elem "h2" "spotlight__name" product.name none [] []
  let priceContainer ← createPriceContainer product
  pure (Node.elem "div" "spotlight__info" "" none []
    ([nameNode, priceContainer] ++ infoTail product labels rootLink))

/-- The block configuration as produced by `readBlockConfig` (an external
collaborator): each recognized key is either absent or mapped to a string
(possibly empty). -/
structure BlockConfig where
  sku : Option String
  title : Option String
  theme : Option String
deriving Repr, DecidableEq

/-- The block element: its CSS class list and its child content. -/
structure Block where
  classes : List String
  content : List Node

/-- One event published on the drop-in event bus. -/
structure EmittedEvent where
  name : String
  payloadSku : String
  payloadName : String
  payloadPrice : Option Int
deriving Repr, DecidableEq

/-- The observable outcome of one `decorate` call: the final block, the
events emitted on the bus, and the SKUs for which a product network
request was issued. -/
structure DecorateResult where
  block : Block
  events : List EmittedEvent
  fetchCalls : List String

/-- The fixed error paragraph the source assigns via `innerHTML`. -/
def errorP (msg : String) : Node :=
  Node.elem "p" "spotlight__error" msg none [] []

/-- `DOMTokenList.add`: inserts a class token unless already present. -/
def classListAdd (cs : List String) (c : String) : List String :=
  if c ∈ cs then cs else cs ++ [c]

/-- The `price` field of the analytics payload:
`product.price_range?.minimum_price?.final_price?.value`. -/
def productPrice (product : Product) : Option Int :=
  ((product.price_range.bind (·.minimum_price)).bind (·.final_price)).bind (·.value)

/-- `decorate` (lines 230-301). Inputs: the labels resolved by
`fetchPlaceholders`, the `rootLink` helper, the transport outcome the
network would produce for the product query, the configuration read by
`readBlockConfig`, and the block element. Destructuring defaults apply
only to absent keys; `!sku` aborts with the ConfigError message before
the theme class and before any product fetch; the `try` block turns any
rendering exception into the FetchError message; the loaded event is
emitted once, after the container is appended. -/
def decorate (labels : Labels) (rootLink : String → String)
    (transport : FetchOutcome) (config : BlockConfig) (block : Block) :
    DecorateResult :=
  let title := config.title.getD "Featured Product"
  let theme := config.theme.getD "default"
  if jsFalsy config.sku then
    { block := { classes := block.classes,
                 content := [errorP "Product SKU is required"] },
      events := [], fetchCalls := [] }
  else
    let sku := config.sku.getD ""
    let classes := classListAdd block.classes ("spotlight--" ++ theme)
    match fetchProductData transport with
    | .error _ =>
        { block := { classes := classes,
                     content := [errorP "Error loading product"] },
          events := [], fetchCalls := [sku] }
    | .ok none =>
        { block := { classes := classes,
                     content := [errorP "Product not found"] },
          events := [], fetchCalls := [sku] }
    | .ok (some product) =>
        let imageNode := createProductImage product
        match createProductInfo product labels rootLink with
        | .error _ =>
            { block := { classes := classes,
                         content := [errorP "Error loading product"] },
              events := [], fetchCalls := [sku] }
        | .ok infoNode =>
            let titleNodes : List Node :=
              if title != "" && title != "Featured Product" then
                [Node.elem "h2" "spotlight__title" title none [] []]
              else []
            let contentWrapper := Node.elem "div" "spotlight__content" "" none []
              [imageNode, infoNode]
            let container := Node.elem "div" "spotlight__container" "" none []
              (titleNodes ++ [contentWrapper])
            { block := { classes := classes, content := [container] },
              events := [{ name := "product-spotlight/loaded",
                           payloadSku := product.sku,
                           payloadName := product.name,
                           payloadPrice := productPrice product }],
              fetchCalls := [sku] }

/-- Projection: the children of an element node (mounts have none). -/
def Node.getChildren : Node → List Node
  | .elem _ _ _ _ _ cs => cs
  | .mount _ _ => []

/-- Projection: the className of an element node (mounts have none). -/
def Node.getClassName : Node → String
  | .elem _ c _ _ _ _ => c
  | .mount _ _ => ""

/-- Sample final price: USD 15.00 (1500 cents). -/
def sampleFinalPrice : FinalPrice := { currency := some "USD", value := some 1500 }

/-- Sample minimum price with equal final and regular price. -/
def sampleMinPrice : MinimumPrice :=
  { final_price := some sampleFinalPrice, regular_price := some { value := some 1500 } }

/-- Sample discounted minimum price: final USD 80.00, regular USD 100.00. -/
def discountMinPrice : MinimumPrice :=
  { final_price := some { currency := some "USD", value := some 8000 },
    regular_price := some { value := some 10000 } }

/-- Sample minimum price whose final_price member is absent. -/
def brokenMinPrice : MinimumPrice :=
  { final_price := none, regular_price := some { value := some 1500 } }

/-- The end-to-end example product: Test Mug, USD 15 = 15, no images. -/
def sampleProduct : Product :=
  { sku := "24-MB01", name := "Test Mug", url_key := none,
    images := some [],
    price_range := some { minimum_price := some sampleMinPrice },
    short_description := none, media_gallery := none }

/-- A product with a discounted price. -/
def discountProduct : Product :=
  { sampleProduct with price_range := some { minimum_price := some discountMinPrice } }

/-- A product whose minimum_price lacks its final_price member. -/
def brokenProduct : Product :=
  { sampleProduct with price_range := some { minimum_price := some brokenMinPrice } }

/-- A response whose first product is the sample product. -/
def sampleResp : GraphQLResponse := { data := some { products := some [sampleProduct] } }

/-- A response carrying the broken-price product. -/
def brokenResp : GraphQLResponse := { data := some { products := some [brokenProduct] } }

/-- A well-formed response with an empty product list. -/
def emptyResp : GraphQLResponse := { data := some { products := some [] } }

/-- Labels with no Global group (all label lookups fall back). -/
def sampleLabels : Labels := { Global := none }

/-- The end-to-end example configuration: sku 24-MB01, theme dark. -/
def sampleConfig : BlockConfig :=
  { sku := some "24-MB01", title := none, theme := some "dark" }

/-- A configuration with no sku key. -/
def noSkuConfig : BlockConfig := { sku := none, title := none, theme := none }

/-- A configuration whose theme key is present but empty. -/
def emptyThemeConfig : BlockConfig :=
  { sku := some "24-MB01", title := none, theme := some "" }

/-- A fresh block element with no classes and no content. -/
def emptyBlock : Block := { classes := [], content := [] }

theorem jsFalsy_eq_false_of_some {s : String} (h : s ≠ "") :
    jsFalsy (some s) = false := by
  simp [jsFalsy, h]

/-- Helper: past validation, every terminal branch of `decorate` carries
the theme class obtained by `classList.add`. -/
theorem decorate_classes (labels : Labels) (rl : String → String)
    (transport : FetchOutcome) (config : BlockConfig) (block : Block)
    (h : jsFalsy config.sku = false) :
    (decorate labels rl transport config block).block.classes =
      classListAdd block.classes ("spotlight--" ++ config.theme.getD "default") := by
  cases hf : fetchProductData transport with
  | error e => simp [decorate, h, hf]
  | ok op =>
    cases op with
    | none => simp [decorate, h, hf]
    | some product =>
      cases hi : createProductInfo product labels rl with
      | error e => simp [decorate, h, hf, hi]
      | ok info => simp [decorate, h, hf, hi]

/-- C1: for every configuration whose sku key is missing or maps to the
empty string, decorate terminates with the fixed "Product SKU is
required" ConfigError content and issues no product network request. -/
theorem decorate_configError_no_fetch (labels : Labels) (rl : String → String)
    (transport : FetchOutcome) (config : BlockConfig) (block : Block)
    (h : config.sku = none ∨ config.sku = some "") :
    (decorate labels rl transport config block).block.content =
      [errorP "Product SKU is required"] ∧
    (decorate labels rl transport config block).fetchCalls = [] := by
  have hj : jsFalsy config.sku = true := by
    rcases h with h | h <;> simp [jsFalsy, h]
  simp [decorate, hj]

/-- Witness for C1 at the concrete skuless configuration. -/
theorem decorate_configError_no_fetch_witness :
    (noSkuConfig.sku = none ∨ noSkuConfig.sku = some "") ∧
    ((decorate sampleLabels id (FetchOutcome.ok sampleResp) noSkuConfig
        emptyBlock).block.content = [errorP "Product SKU is required"] ∧
      (decorate sampleLabels id (FetchOutcome.ok sampleResp) noSkuConfig
        emptyBlock).fetchCalls = []) :=
  ⟨Or.inl rfl,
    decorate_configError_no_fetch sampleLabels id (FetchOutcome.ok sampleResp)
      noSkuConfig emptyBlock (Or.inl rfl)⟩

/-- C2: fetchProductData never propagates an exception (its result is
always an `ok`); on a thrown transport or parse exception it returns
null, and on a parsed body it returns `data.data?.products?.[0] || null`
(so any malformed body shape also yields null). -/
theorem fetchProductData_never_throws (o : FetchOutcome) :
    (∃ r, fetchProductData o = Except.ok r) ∧
    ((o = FetchOutcome.networkError ∨ o = FetchOutcome.jsonError) →
      fetchProductData o = Except.ok none) ∧
    (∀ resp, o = FetchOutcome.ok resp →
      fetchProductData o =
        Except.ok ((resp.data.bind (·.products)).bind List.head?)) := by
  refine ⟨?_, ?_, ?_⟩
  · cases o <;> exact ⟨_, rfl⟩
  · rintro (rfl | rfl) <;> rfl
  · rintro resp rfl; rfl

/-- Witness for C2 at a concrete transport failure. -/
theorem fetchProductData_never_throws_witness :
    fetchProductData FetchOutcome.networkError = Except.ok none :=
  (fetchProductData_never_throws FetchOutcome.networkError).2.1 (Or.inl rfl)

/-- C4: for a configuration with a non-empty sku where the fetch returns
null, decorate terminates with exactly the fixed "Product not found"
content and emits no analytics event. -/
theorem decorate_notFound (labels : Labels) (rl : String → String)
    (transport : FetchOutcome) (config : BlockConfig) (block : Block)
    (s : String) (h1 : config.sku = some s) (h2 : s ≠ "")
    (h3 : fetchProductData transport = Except.ok none) :
    (decorate labels rl transport config block).block.content =
      [errorP "Product not found"] ∧
    (decorate labels rl transport config block).events = [] := by
  have hj : jsFalsy config.sku = false := h1 ▸ jsFalsy_eq_false_of_some h2
  simp [decorate, hj, h3]

/-- Witness for C4 at the concrete empty-products response. -/
theorem decorate_notFound_witness :
    sampleConfig.sku = some "24-MB01" ∧
    fetchProductData (FetchOutcome.ok emptyResp) = Except.ok none ∧
    ((decorate sampleLabels id (FetchOutcome.ok emptyResp) sampleConfig
        emptyBlock).block.content = [errorP "Product not found"] ∧
      (decorate sampleLabels id (FetchOutcome.ok emptyResp) sampleConfig
        emptyBlock).events = []) :=
  ⟨rfl, rfl,
    decorate_notFound sampleLabels id (FetchOutcome.ok emptyResp) sampleConfig
      emptyBlock "24-MB01" rfl (by decide) rfl⟩

/-- C10: past validation, the destructuring default for theme applies
only to an absent key: a present-but-empty theme yields exactly the
class "spotlight--", any non-empty theme t yields exactly the class
"spotlight--" followed by t, and only an absent key yields
"spotlight--default". -/
theorem decorate_theme_class (labels : Labels) (rl : String → String)
    (transport : FetchOutcome) (config : BlockConfig) (block : Block)
    (h : jsFalsy config.sku = false) :
    (config.theme = some "" →
      (decorate labels rl transport config block).block.classes =
        classListAdd block.classes "spotlight--") ∧
    (∀ t, config.theme = some t → t ≠ "" →
      (decorate labels rl transport config block).block.classes =
        classListAdd block.classes ("spotlight--" ++ t)) ∧
    (config.theme = none →
      (decorate labels rl transport config block).block.classes =
        classListAdd block.classes "spotlight--default") := by
  have hc := decorate_classes labels rl transport config block h
  refine ⟨fun ht => ?_, fun t ht _ => ?_, fun ht => ?_⟩ <;>
    rw [ht] at hc <;> simpa using hc

/-- Witness for C10 at the concrete present-but-empty theme. -/
theorem decorate_theme_class_witness :
    jsFalsy emptyThemeConfig.sku = false ∧
    emptyThemeConfig.theme = some "" ∧
    (decorate sampleLabels id (FetchOutcome.ok sampleResp) emptyThemeConfig
        emptyBlock).block.classes = classListAdd emptyBlock.classes "spotlight--" :=
  ⟨by decide, rfl,
    (decorate_theme_class sampleLabels id (FetchOutcome.ok sampleResp)
      emptyThemeConfig emptyBlock (by decide)).1 rfl⟩

/-- Helper: when the minimum_price object lacks its final_price member,
or has one without a numeric value, the price rendering throws. -/
theorem createPriceContainer_error (product : Product) (pd : MinimumPrice)
    (hpd : product.price_range.bind (·.minimum_price) = some pd)
    (hbad : pd.final_price = none ∨
      ∃ fp, pd.final_price = some fp ∧ fp.value = none) :
    ∃ e, createPriceContainer product = Except.error e := by
  rcases hbad with hfp | ⟨fp, hfp, hv⟩
  · refine ⟨JsError.typeError "cannot destructure currency", ?_⟩
    simp only [createPriceContainer, hpd, hfp]
    rfl
  · cases hrp : pd.regular_price with
    | none =>
        refine ⟨JsError.typeError "cannot read value of undefined", ?_⟩
        simp only [createPriceContainer, hpd, hfp, hrp]
        rfl
    | some rp =>
        obtain ⟨cur, val⟩ := fp
        cases hv
        refine ⟨JsError.typeError "toFixed of undefined", ?_⟩
        simp only [createPriceContainer, hpd, hfp, hrp]
        rfl

/-- Helper: a throw in the price rendering propagates out of
`createProductInfo`. -/
theorem createProductInfo_error (product : Product) (labels : Labels)
    (rl : String → String) (e : JsError)
    (h : createPriceContainer product = Except.error e) :
    createProductInfo product labels rl = Except.error e := by
  simp [createProductInfo, h, Except.bind]

/-- C3: the "product-spotlight/loaded" event fires exactly once on a
decoration whose fetch returns a product and whose rendering completes,
with payload sku, name, and price (the optional chain through
price_range.minimum_price.final_price.value, hence undefined when
pricing is absent and the final value when minimum_price is present);
the event list is empty on the ConfigError, NotFound, and FetchError
paths. -/
theorem decorate_loaded_event (labels : Labels) (rl : String → String)
    (transport : FetchOutcome) (config : BlockConfig) (block : Block) :
    (∀ product,
        jsFalsy config.sku = false →
        fetchProductData transport = Except.ok (some product) →
        (createProductInfo product labels rl).isOk = true →
        (decorate labels rl transport config block).events =
          [{ name := "product-spotlight/loaded", payloadSku := product.sku,
             payloadName := product.name,
             payloadPrice := productPrice product }] ∧
        (product.price_range.bind (·.minimum_price) = none →
          productPrice product = none) ∧
        (∀ pd fp v, product.price_range.bind (·.minimum_price) = some pd →
          pd.final_price = some fp → fp.value = some v →
          productPrice product = some v)) ∧
    (jsFalsy config.sku = true →
      (decorate labels rl transport config block).events = []) ∧
    (fetchProductData transport = Except.ok none →
      (decorate labels rl transport config block).events = []) ∧
    (∀ product,
        fetchProductData transport = Except.ok (some product) →
        (createProductInfo product labels rl).isOk = false →
        (decorate labels rl transport config block).events = []) := by
  refine ⟨fun product hsku hfetch hinfo => ?_, fun hsku => ?_, fun hfetch => ?_,
    fun product hfetch hinfo => ?_⟩
  · cases hi : createProductInfo product labels rl with
    | error e => rw [hi] at hinfo; simp [Except.isOk, Except.toBool] at hinfo
    | ok info =>
        refine ⟨by simp [decorate, hsku, hfetch, hi], fun hpd => ?_,
          fun pd fp v hpd hfp hv => ?_⟩
        · simp [productPrice, hpd]
        · simp [productPrice, hpd, hfp, hv]
  · simp [decorate, hsku]
  · cases hsku : jsFalsy config.sku
    · simp [decorate, hsku, hfetch]
    · simp [decorate, hsku]
  · cases hi : createProductInfo product labels rl with
    | error e =>
        cases hsku : jsFalsy config.sku
        · simp [decorate, hsku, hfetch, hi]
        · simp [decorate, hsku]
    | ok info => rw [hi] at hinfo; simp [Except.isOk, Except.toBool] at hinfo

/-- Witness for C3 at the concrete successful decoration. -/
theorem decorate_loaded_event_witness :
    jsFalsy sampleConfig.sku = false ∧
    fetchProductData (FetchOutcome.ok sampleResp) = Except.ok (some sampleProduct) ∧
    (createProductInfo sampleProduct sampleLabels id).isOk = true ∧
    (decorate sampleLabels id (FetchOutcome.ok sampleResp) sampleConfig
        emptyBlock).events =
      [{ name := "product-spotlight/loaded", payloadSku := sampleProduct.sku,
         payloadName := sampleProduct.name,
         payloadPrice := productPrice sampleProduct }] :=
  ⟨by decide, rfl, rfl,
    ((decorate_loaded_event sampleLabels id (FetchOutcome.ok sampleResp)
      sampleConfig emptyBlock).1 sampleProduct (by decide) rfl rfl).1⟩

/-- C9: a fetched product whose minimum_price is present but whose
final_price is absent or lacks a numeric value makes the guarded render
throw, so decorate terminates with the fixed "Error loading product"
FetchError content and emits no analytics event. -/
theorem decorate_fetchError_malformed_price (labels : Labels)
    (rl : String → String) (transport : FetchOutcome) (config : BlockConfig)
    (block : Block) (product : Product) (pd : MinimumPrice)
    (hsku : jsFalsy config.sku = false)
    (hfetch : fetchProductData transport = Except.ok (some product))
    (hpd : product.price_range.bind (·.minimum_price) = some pd)
    (hbad : pd.final_price = none ∨
      ∃ fp, pd.final_price = some fp ∧ fp.value = none) :
    (decorate labels rl transport config block).block.content =
      [errorP "Error loading product"] ∧
    (decorate labels rl transport config block).events = [] := by
  obtain ⟨e, he⟩ := createPriceContainer_error product pd hpd hbad
  have hinfo := createProductInfo_error product labels rl e he
  simp [decorate, hsku, hfetch, hinfo]

/-- Witness for C9 at the concrete product lacking final_price. -/
theorem decorate_fetchError_malformed_price_witness :
    jsFalsy sampleConfig.sku = false ∧
    fetchProductData (FetchOutcome.ok brokenResp) =
      Except.ok (some brokenProduct) ∧
    brokenProduct.price_range.bind (·.minimum_price) = some brokenMinPrice ∧
    brokenMinPrice.final_price = none ∧
    ((decorate sampleLabels id (FetchOutcome.ok brokenResp) sampleConfig
        emptyBlock).block.content = [errorP "Error loading product"] ∧
      (decorate sampleLabels id (FetchOutcome.ok brokenResp) sampleConfig
        emptyBlock).events = []) :=
  ⟨by decide, rfl, rfl, rfl,
    decorate_fetchError_malformed_price sampleLabels id
      (FetchOutcome.ok brokenResp) sampleConfig emptyBlock brokenProduct
      brokenMinPrice (by decide) rfl rfl (Or.inl rfl)⟩

/-- C5: for a product with a well-formed present minimum_price, the info
region renders the final price as the currency, a space, and the value
to two decimal places; when the final value is below the regular value
the original-price span is present and precedes the final-price span in
the price container's child order, and when the two are equal the
original-price span is absent. -/
theorem createProductInfo_price_rendering (product : Product) (labels : Labels)
    (rl : String → String) (pd : MinimumPrice) (fp : FinalPrice)
    (rp : RegularPrice) (cur : String) (fv rv : Int)
    (hpd : product.price_range.bind (·.minimum_price) = some pd)
    (hfp : pd.final_price = some fp) (hrp : pd.regular_price = some rp)
    (hcur : fp.currency = some cur) (hfv : fp.value = some fv)
    (hrv : rp.value = some rv) :
    ∃ rest,
      (fv < rv →
        createProductInfo product labels rl = Except.ok
          (Node.elem "div" "spotlight__info" "" none []
            (Node.elem "h2" "spotlight__name" product.name none [] [] ::
              Node.elem "div" "spotlight__price-container" "" none []
                [Node.elem "span" "spotlight__price-original"
                    (cur ++ " " ++ toFixed2 rv) none [] [],
                  Node.elem "span" "spotlight__price"
                    (cur ++ " " ++ toFixed2 fv) none [] []] :: rest))) ∧
      (fv = rv →
        createProductInfo product labels rl = Except.ok
          (Node.elem "div" "spotlight__info" "" none []
            (Node.elem "h2" "spotlight__name" product.name none [] [] ::
              Node.elem "div" "spotlight__price-container" "" none []
                [Node.elem "span" "spotlight__price"
                    (cur ++ " " ++ toFixed2 fv) none [] []] :: rest))) := by
  obtain ⟨curO, valO⟩ := fp
  cases hcur
  cases hfv
  obtain ⟨rvalO⟩ := rp
  cases hrv
  have hpc : createPriceContainer product = Except.ok
      (Node.elem "div" "spotlight__price-container" "" none []
        (if fv < rv then
          [Node.elem "span" "spotlight__price-original"
              (cur ++ " " ++ toFixed2 rv) none [] [],
            Node.elem "span" "spotlight__price"
              (cur ++ " " ++ toFixed2 fv) none [] []]
         else
          [Node.elem "span" "spotlight__price"
              (cur ++ " " ++ toFixed2 fv) none [] []])) := by
    simp only [createPriceContainer, hpd, hfp, hrp]
    rfl
  refine ⟨infoTail product labels rl, fun hlt => ?_, fun heq => ?_⟩
  · rw [if_pos hlt] at hpc
    simp only [createProductInfo, hpc]
    rfl
  · rw [if_neg (by simp [heq])] at hpc
    simp only [createProductInfo, hpc]
    rfl

/-- Witness for C5 at the concrete discounted product (80 below 100). -/
theorem createProductInfo_price_rendering_witness :
    discountProduct.price_range.bind (·.minimum_price) = some discountMinPrice ∧
    (8000 : Int) < 10000 ∧
    (∃ rest,
      createProductInfo discountProduct sampleLabels id = Except.ok
        (Node.elem "div" "spotlight__info" "" none []
          (Node.elem "h2" "spotlight__name" discountProduct.name none [] [] ::
            Node.elem "div" "spotlight__price-container" "" none []
              [Node.elem "span" "spotlight__price-original"
                  ("USD" ++ " " ++ toFixed2 10000) none [] [],
                Node.elem "span" "spotlight__price"
                  ("USD" ++ " " ++ toFixed2 8000) none [] []] :: rest))) :=
  ⟨rfl, by decide,
    (createProductInfo_price_rendering discountProduct sampleLabels id
        discountMinPrice { currency := some "USD", value := some 8000 }
        { value := some 10000 } "USD" 8000 10000
        rfl rfl rfl rfl rfl rfl).elim
      (fun rest hr => ⟨rest, hr.1 (by decide)⟩)⟩

theorem nodesHaveClass_append (c : String) (l1 l2 : List Node) :
    nodesHaveClass c (l1 ++ l2) =
      (nodesHaveClass c l1 || nodesHaveClass c l2) := by
  induction l1 with
  | nil => simp [nodesHaveClass]
  | cons n ns ih => simp [nodesHaveClass, ih, Bool.or_assoc]

theorem createProductImage_no_title (product : Product) :
    nodeHasClass "spotlight__title" (createProductImage product) = false := by
  simp only [createProductImage]
  split <;> rfl

theorem createActions_no_title (product : Product) (labels : Labels)
    (rl : String → String) :
    nodeHasClass "spotlight__title" (createActions product labels rl) = false := rfl

theorem createDescriptionNodes_no_title (product : Product) :
    nodesHaveClass "spotlight__title" (createDescriptionNodes product) = false := by
  simp only [createDescriptionNodes]
  split
  · split <;> rfl
  · rfl

theorem createPriceContainer_no_title (product : Product) (pc : Node)
    (h : createPriceContainer product = Except.ok pc) :
    nodeHasClass "spotlight__title" pc = false := by
  cases hpd : product.price_range.bind (·.minimum_price) with
  | none =>
      simp only [createPriceContainer, hpd] at h
      injection h with h
      subst h
      rfl
  | some pd =>
      obtain ⟨fpO, rpO⟩ := pd
      cases fpO with
      | none =>
          simp only [createPriceContainer, hpd] at h
          exact Except.noConfusion h
      | some fp =>
          cases rpO with
          | none =>
              simp only [createPriceContainer, hpd] at h
              exact Except.noConfusion h
          | some rp =>
              obtain ⟨curO, valO⟩ := fp
              cases valO with
              | none =>
                  simp only [createPriceContainer, hpd] at h
                  exact Except.noConfusion h
              | some fv =>
                  obtain ⟨rvalO⟩ := rp
                  simp only [createPriceContainer, hpd] at h
                  injection h with h
                  subst h
                  cases rvalO with
                  | none => rfl
                  | some rv =>
                      simp only [nodeHasClass]
                      split <;> rfl

theorem createProductInfo_no_title (product : Product) (labels : Labels)
    (rl : String → String) (info : Node)
    (h : createProductInfo product labels rl = Except.ok info) :
    nodeHasClass "spotlight__title" info = false := by
  cases hpc : createPriceContainer product with
  | error e =>
      rw [createProductInfo_error product labels rl e hpc] at h
      exact absurd h (by simp)
  | ok pc =>
      simp only [createProductInfo, hpc, Except.bind] at h
      injection h with h
      subst h
      simp [nodeHasClass, nodesHaveClass, nodesHaveClass_append, infoTail,
        createPriceContainer_no_title product pc hpc,
        createDescriptionNodes_no_title, createActions_no_title]
      exact createActions_no_title product labels rl

/-- C6: on a successful decoration, a default title (absent key or the
explicit string "Featured Product") renders no title element anywhere in
the block content, while any other non-empty configured title renders a
title element with exactly that text as the first child of the
container. -/
theorem decorate_title_rendering (labels : Labels) (rl : String → String)
    (transport : FetchOutcome) (config : BlockConfig) (block : Block)
    (product : Product)
    (hsku : jsFalsy config.sku = false)
    (hfetch : fetchProductData transport = Except.ok (some product))
    (hinfo : (createProductInfo product labels rl).isOk = true) :
    ((config.title = none ∨ config.title = some "Featured Product") →
      nodesHaveClass "spotlight__title"
        (decorate labels rl transport config block).block.content = false) ∧
    (∀ t, config.title = some t → t ≠ "" → t ≠ "Featured Product" →
      ∃ info, createProductInfo product labels rl = Except.ok info ∧
        (decorate labels rl transport config block).block.content =
          [Node.elem "div" "spotlight__container" "" none []
            [Node.elem "h2" "spotlight__title" t none [] [],
             Node.elem "div" "spotlight__content" "" none []
               [createProductImage product, info]]]) := by
  cases hi : createProductInfo product labels rl with
  | error e => rw [hi] at hinfo; simp [Except.isOk, Except.toBool] at hinfo
  | ok info =>
      constructor
      · intro ht
        have htitle : config.title.getD "Featured Product" = "Featured Product" := by
          rcases ht with ht | ht <;> simp [ht]
        simp only [decorate, hsku, hfetch, hi, htitle]
        simp [nodesHaveClass, nodeHasClass, nodesHaveClass_append,
          createProductImage_no_title,
          createProductInfo_no_title product labels rl info hi]
      · intro t ht ht2 ht3
        have htitle : config.title.getD "Featured Product" = t := by simp [ht]
        have hcond : (t != "" && t != "Featured Product") = true := by
          simp [ht2, ht3]
        refine ⟨info, rfl, ?_⟩
        simp only [decorate, hsku, hfetch, hi, htitle, hcond]
        rfl

/-- Witness for C6 at the concrete default-title decoration. -/
theorem decorate_title_rendering_witness :
    jsFalsy sampleConfig.sku = false ∧
    fetchProductData (FetchOutcome.ok sampleResp) =
      Except.ok (some sampleProduct) ∧
    (createProductInfo sampleProduct sampleLabels id).isOk = true ∧
    (sampleConfig.title = none ∨ sampleConfig.title = some "Featured Product") ∧
    nodesHaveClass "spotlight__title"
      (decorate sampleLabels id (FetchOutcome.ok sampleResp) sampleConfig
        emptyBlock).block.content = false :=
  ⟨by decide, rfl, rfl, Or.inl rfl,
    (decorate_title_rendering sampleLabels id (FetchOutcome.ok sampleResp)
      sampleConfig emptyBlock sampleProduct (by decide) rfl rfl).1 (Or.inl rfl)⟩

/-- C7: for the concrete config (sku 24-MB01, theme dark) and a backend
response whose first product is the Test Mug at USD 15 with equal
regular price, empty image list and no description, the decorated block
has exactly the class spotlight--dark, contains the "No Image Available"
placeholder and no img element, shows the price text "USD 15.00", and
contains no original-price and no description element. -/
theorem decorate_example_end_to_end :
    (decorate sampleLabels id (FetchOutcome.ok sampleResp) sampleConfig
        emptyBlock).block.classes = ["spotlight--dark"] ∧
    nodesHaveText "No Image Available"
      (decorate sampleLabels id (FetchOutcome.ok sampleResp) sampleConfig
        emptyBlock).block.content = true ∧
    nodesHaveTag "img"
      (decorate sampleLabels id (FetchOutcome.ok sampleResp) sampleConfig
        emptyBlock).block.content = false ∧
    nodesHaveText "USD 15.00"
      (decorate sampleLabels id (FetchOutcome.ok sampleResp) sampleConfig
        emptyBlock).block.content = true ∧
    nodesHaveClass "spotlight__price-original"
      (decorate sampleLabels id (FetchOutcome.ok sampleResp) sampleConfig
        emptyBlock).block.content = false ∧
    nodesHaveClass "spotlight__description"
      (decorate sampleLabels id (FetchOutcome.ok sampleResp) sampleConfig
        emptyBlock).block.content = false := by
  decide

theorem mem_classListAdd (cs : List String) (c : String) :
    c ∈ classListAdd cs c := by
  by_cases h : c ∈ cs <;> simp [classListAdd, h]

theorem classListAdd_idem (cs : List String) (c : String) :
    classListAdd (classListAdd cs c) c = classListAdd cs c := by
  rw [show classListAdd (classListAdd cs c) c =
      if c ∈ classListAdd cs c then classListAdd cs c
      else classListAdd cs c ++ [c] from rfl]
  rw [if_pos (mem_classListAdd cs c)]

/-- C8: decoration is idempotent: running decorate again on the block it
produced, with the same labels, configuration and backend outcome,
yields a block with identical content and class list (class addition is
set-like, and every path rebuilds the content from the inputs alone). -/
theorem decorate_idempotent (labels : Labels) (rl : String → String)
    (transport : FetchOutcome) (config : BlockConfig) (block : Block) :
    (decorate labels rl transport config
        (decorate labels rl transport config block).block).block =
      (decorate labels rl transport config block).block := by
  cases hj : jsFalsy config.sku with
  | true => simp [decorate, hj]
  | false =>
      cases hf : fetchProductData transport with
      | error e => simp [decorate, hj, hf, classListAdd_idem]
      | ok op =>
          cases op with
          | none => simp [decorate, hj, hf, classListAdd_idem]
          | some product =>
              cases hi : createProductInfo product labels rl with
              | error e => simp [decorate, hj, hf, hi, classListAdd_idem]
              | ok info => simp [decorate, hj, hf, hi, classListAdd_idem]

end ProductSpotlight
